import Mathlib

/-!
Verification of the replay orchestrator (`pkg/service/replay/replay.go`).

The Go service is embedded shallowly: every external collaborator call
(test/mock/report stores, instrumentation, request emulator) is resolved by an
explicit environment record supplying that call's outcome, and the control flow
of `Start` / `RunTestSet` / `Normalize` is transcribed branch by branch.
Observable side effects (SetMocks, SimulateRequest, InsertTestCaseResult,
InsertReport, UpdateMocks) are accumulated in an event trace.
-/

namespace Keploy

/-- Errors as the Go code distinguishes them: `context.Canceled` compared with
`==` against everything else (wrapped errors are never `== context.Canceled`). -/
inductive GoErr
  | canceled
  | other
  deriving DecidableEq, Repr

/-- models.TestSetStatus values used by the replayer. -/
inductive TestSetStatus
  | running
  | passed
  | failed
  | appHalted
  | internalErr
  | faultUserApp
  | faultScript
  | userAbort
  deriving DecidableEq, Repr

/-- models.AppError kinds switched on in `RunTestSet` (lines 331-344);
`errOther` stands for any kind not named in the switch (the `default` arm). -/
inductive AppErrorType
  | errCommandError
  | errUnExpected
  | errAppStopped
  | errCtxCanceled
  | errInternal
  | errOther
  deriving DecidableEq, Repr

/-- What wakes the error-watcher goroutine of `RunTestSet` (lines 327-352):
either an `AppError` arriving on `appErrChan` or `runTestSetCtx.Done()`. -/
inductive WatcherEvent
  | appErr (kind : AppErrorType)
  | ctxDone
  deriving DecidableEq, Repr

/-- The value the watcher goroutine stores into `testSetStatusByErrChan`
(lines 330-348). `none` means the goroutine returns without classifying
anything (the `ErrCtxCanceled` arm returns before the assignment). -/
def watcherStatus : WatcherEvent → Option TestSetStatus
  | .appErr .errCommandError => some .faultUserApp
  | .appErr .errUnExpected => some .appHalted
  | .appErr .errAppStopped => some .appHalted
  | .appErr .errCtxCanceled => none
  | .appErr .errInternal => some .internalErr
  | .appErr .errOther => some .appHalted
  | .ctxDone => some .userAbort

/-- models.TestStatus: per-test-case verdicts recorded in a report. -/
inductive TestStatus
  | running
  | passed
  | failed
  deriving DecidableEq, Repr

/-- The slice of a models.TestCase that `RunTestSet` consults: its name and
the request/response capture timestamps (time modelled as `Nat`). -/
structure TC where
  name : String
  reqTs : Nat
  respTs : Nat
  deriving DecidableEq, Repr

/-- Environment-supplied outcomes of the collaborator calls made for one
iteration of the per-case loop of `RunTestSet` (lines 395-525).
`exitSignal = some s` means the non-blocking read of `exitLoopChan` at the top
of the iteration sees a token while `testSetStatusByErrChan = s`. -/
structure CaseOutcome where
  exitSignal : Option TestSetStatus := none
  /-- `GetMocks` inside `SetupOrUpdateMocks` (Update action) succeeds. -/
  mockFetchOk : Bool := true
  /-- the `SetMocks` call on the instrumentation succeeds. -/
  setMocksOk : Bool := true
  /-- `utils.ReplaceHostToIP` succeeds (consulted only in docker mode). -/
  hostOk : Bool := true
  /-- `SimulateRequest` returns without error. -/
  simOk : Bool := true
  /-- names returned by `GetConsumedMocks` after this case (empty on error,
  since that error is only logged). -/
  consumed : List String := []
  /-- the boolean returned by `compareResp`. -/
  pass : Bool := true
  /-- the `*models.Result` returned by `compareResp` is nil. -/
  resNil : Bool := false
  /-- `InsertTestCaseResult` succeeds. -/
  insOk : Bool := true
  deriving DecidableEq, Repr

/-- A stored test case together with the environment's outcomes for it. -/
structure CaseRun where
  tc : TC
  out : CaseOutcome
  deriving DecidableEq, Repr

/-- A models.TestReport as inserted by `RunTestSet` (lines 378-382, 556-564):
the fields the claims talk about. -/
structure TestReport where
  total : Nat
  success : Nat
  failure : Nat
  status : TestSetStatus
  deriving DecidableEq, Repr

/-- Observable side effects of a `RunTestSet` run, in program order. -/
inductive Ev
  /-- `SetMocks(filtered, unfiltered)` for the window `[afterTs, beforeTs]`. -/
  | setMocks (afterTs beforeTs : Nat)
  /-- `SimulateRequest` for the named test case. -/
  | simulate (name : String)
  /-- `InsertTestCaseResult` for the named test case. -/
  | insertResult (name : String)
  /-- a successful `InsertReport`. -/
  | reportWrite (rep : TestReport)
  /-- `UpdateMocks(testSetID, totalConsumedMocks)` (unused-mock pruning). -/
  | prune (mocks : List String)
  deriving DecidableEq, Repr

/-- Mutable loop state of the per-case loop: the `success` / `failure`
counters, `testSetStatus`, and the `totalConsumedMocks` accumulator
(a Go `map[string]bool`, modelled as a list read up to membership). -/
structure LoopSt where
  success : Nat := 0
  failure : Nat := 0
  status : TestSetStatus := .passed
  consumed : List String := []
  deriving DecidableEq, Repr

/-- Environment of one `RunTestSet` invocation: the configuration fields it
reads and the outcome of every collaborator call outside the per-case loop. -/
structure RunEnv where
  /-- `config.Test.BasePath` (override base-URL mode when nonempty). -/
  basePath : String := ""
  /-- `utils.IsDockerKind(cmdType)`. -/
  dockerKind : Bool := false
  /-- `config.Test.RemoveUnusedMocks`. -/
  removeUnusedMocks : Bool := false
  /-- `testSetConf.Read` finds a config (consulted only in override mode). -/
  confFound : Bool := true
  /-- the pre-script exits zero (consulted only in override mode). -/
  preScriptOk : Bool := true
  /-- the post-script exits zero (consulted only in override mode). -/
  postScriptOk : Bool := true
  /-- result of `GetTestCases`, each case paired with its loop outcomes. -/
  getTestCases : Except GoErr (List CaseRun) := .ok []
  /-- error of `GetMocks` inside the initial `SetupOrUpdateMocks` (Start). -/
  startFetchRes : Option GoErr := none
  /-- error of `MockOutgoing`/`SetMocks` in the initial setup. -/
  startSetRes : Option GoErr := none
  /-- `runTestSetCtx.Done()` fires during the warmup `Delay` sleep. -/
  canceledDuringDelay : Bool := false
  /-- error of `GetContainerIP` (consulted only in docker mode). -/
  containerIPRes : Option GoErr := none
  /-- `config.Test.SelectedTests[testSetID]` (empty means run all). -/
  selected : List String := []
  /-- error of the initial `InsertReport`. -/
  insertInitialRes : Option GoErr := none
  /-- the post-loop `GetTestCaseResults` fails. -/
  getResultsErr : Bool := false
  /-- `runTestSetCtx.Err() == context.Canceled` at the post-loop check. -/
  ctxCanceledAtEnd : Bool := false
  /-- the post-loop non-blocking read of `exitLoopChan` sees a token while
  `testSetStatusByErrChan` holds this status. -/
  finalExit : Option TestSetStatus := none
  /-- the final `InsertReport` succeeds. -/
  insertFinalOk : Bool := true
  /-- `models.BaseTime`. -/
  baseTime : Nat := 0
  /-- `time.Now()` at the initial mock setup. -/
  now : Nat := 0

/-- Result of a `RunTestSet` invocation: the returned status and error, the
event trace, and the terminal report when one was successfully inserted. -/
structure RunResult where
  status : TestSetStatus
  err : Option GoErr
  trace : List Ev
  report : Option TestReport
  deriving DecidableEq, Repr

namespace Replayer

/-- The per-case loop of `RunTestSet` (lines 395-525). Returns the final loop
state and the events of the loop body. Faithful points: a selection miss
`continue`s (397); an `exitLoopChan` token breaks with
`testSetStatus = testSetStatusByErrChan` (413-422); a mock fetch/set failure
breaks (430-434); a host-rewrite failure breaks in docker mode (436-444); a
`SimulateRequest` error increments `failure` and `continue`s (447-452);
consumed mocks are accumulated only when pruning is enabled and no base path
is set (455-465); a comparison failure sets `testSetStatus = FAILED` (478-482);
a nil comparison `Result` breaks (515-518); an `InsertTestCaseResult` error
breaks (510-514) — the error lands in the `loopErr` declared at line 427,
which shadows the outer one declared at line 393 and dies with the iteration. -/
def runLoop (env : RunEnv) : LoopSt → List CaseRun → LoopSt × List Ev
  | st, [] => (st, [])
  | st, c :: rest =>
    if env.selected ≠ [] ∧ c.tc.name ∉ env.selected then
      runLoop env st rest
    else
      match c.out.exitSignal with
      | some s => ({ st with status := s }, [])
      | none =>
        if env.basePath = "" ∧ ¬c.out.mockFetchOk then (st, [])
        else
          let ev0 : List Ev :=
            if env.basePath = "" then [.setMocks c.tc.reqTs c.tc.respTs] else []
          if env.basePath = "" ∧ ¬c.out.setMocksOk then (st, ev0)
          else if env.dockerKind ∧ env.basePath = "" ∧ ¬c.out.hostOk then (st, ev0)
          else
            let ev1 := ev0 ++ [.simulate c.tc.name]
            if ¬c.out.simOk then
              let next := runLoop env { st with failure := st.failure + 1 } rest
              (next.1, ev1 ++ next.2)
            else
              let consumed1 :=
                if env.basePath = "" ∧ env.removeUnusedMocks then
                  st.consumed ++ c.out.consumed
                else st.consumed
              let st2 :=
                if c.out.pass then
                  { st with success := st.success + 1, consumed := consumed1 }
                else
                  { st with failure := st.failure + 1, status := .failed,
                            consumed := consumed1 }
              if c.out.resNil then (st2, ev1)
              else
                let ev2 := ev1 ++ [.insertResult c.tc.name]
                if ¬c.out.insOk then (st2, ev2)
                else
                  let next := runLoop env st2 rest
                  (next.1, ev2 ++ next.2)

/-- `testCasesCount` (lines 371-375): the number of stored cases, overridden
by the size of the selection map (`ArrayToMap` deduplicates) when nonempty. -/
def testCasesCount (env : RunEnv) (cases : List CaseRun) : Nat :=
  if env.selected = [] then cases.length else env.selected.dedup.length

/-- The terminal `testSetStatus` computed after the loop (lines 535-554):
a failed post-loop `GetTestCaseResults` promotes to INTERNAL_ERR unless the
scope was canceled (535-541); the `loopErr` consulted at line 545 is the
outer variable of line 393, which the loop never assigns (line 427 declares
a shadowing one), so that check never fires and only the `exitLoopChan`
re-check of lines 548-553 can rewrite the status. -/
def finalStatus (env : RunEnv) (cases : List CaseRun) : TestSetStatus :=
  match env.finalExit with
  | some s => s
  | none =>
    if env.getResultsErr ∧ ¬env.ctxCanceledAtEnd then .internalErr
    else (runLoop env {} cases).1.status

/-- Phases E-I of `RunTestSet` (lines 377-609): seed the RUNNING report, run
the per-case loop, run the post-script in override mode (528-534), apply the
post-loop status fixups (`finalStatus`), insert the terminal report through
the cancellation-immune scope (566-572), and prune unused mocks when pruning
is enabled, the status is PASSED and no base path is set (574-582). `tr0` is
the trace of the preceding phases. -/
def finishRun (env : RunEnv) (cases : List CaseRun) (tr0 : List Ev) : RunResult :=
  match env.insertInitialRes with
  | some e => ⟨.failed, some e, tr0, none⟩
  | none =>
    let total := testCasesCount env cases
    let tr1 := tr0 ++ [Ev.reportWrite ⟨total, 0, 0, .running⟩]
    let st := (runLoop env {} cases).1
    let tr2 := tr1 ++ (runLoop env {} cases).2
    if env.basePath ≠ "" ∧ ¬env.postScriptOk then
      ⟨.faultScript, some .other, tr2, none⟩
    else
      let rep : TestReport := ⟨total, st.success, st.failure, finalStatus env cases⟩
      if ¬env.insertFinalOk then ⟨.internalErr, some .other, tr2, none⟩
      else
        let tr3 := tr2 ++ [Ev.reportWrite rep]
        if env.removeUnusedMocks ∧ finalStatus env cases = .passed ∧
            env.basePath = "" then
          ⟨finalStatus env cases, none, tr3 ++ [Ev.prune st.consumed], some rep⟩
        else
          ⟨finalStatus env cases, none, tr3, some rep⟩

/-- `RunTestSet` (lines 245-609). Pre-loop phases in program order: override-
mode config read and pre-script (267-283); `GetTestCases` (296-303) with the
empty-set early PASSED return (301-303); the initial
`SetupOrUpdateMocks(BaseTime, now, Start)` (308-311), a no-op in override
mode; the warmup delay select returning `(USER_ABORT, context.Canceled)` on
cancellation (354-359); the container-IP query in docker mode (361-366);
then `finishRun`. -/
def RunTestSet (env : RunEnv) : RunResult :=
  if env.basePath ≠ "" ∧ ¬env.confFound then ⟨.failed, some .other, [], none⟩
  else if env.basePath ≠ "" ∧ ¬env.preScriptOk then
    ⟨.faultScript, some .other, [], none⟩
  else
    match env.getTestCases with
    | .error _ => ⟨.failed, some .other, [], none⟩
    | .ok cases =>
      if cases.isEmpty then ⟨.passed, none, [], none⟩
      else if env.basePath = "" then
        match env.startFetchRes with
        | some e => ⟨.failed, some e, [], none⟩
        | none =>
          match env.startSetRes with
          | some e => ⟨.failed, some e, [.setMocks env.baseTime env.now], none⟩
          | none =>
            if env.canceledDuringDelay then
              ⟨.userAbort, some .canceled, [.setMocks env.baseTime env.now], none⟩
            else
              match (if env.dockerKind then env.containerIPRes else none) with
              | some e => ⟨.failed, some e, [.setMocks env.baseTime env.now], none⟩
              | none => finishRun env cases [.setMocks env.baseTime env.now]
      else
        finishRun env cases []

end Replayer

/-- Environment of one `Start` invocation (lines 68-194): the store/
instrumentation call outcomes and, for each test set ID, the pair
`(status, error)` its `RunTestSet` invocation produces. -/
structure StartEnv where
  /-- result of `GetAllTestSetIDs`. -/
  allTestSetIDs : Except GoErr (List String) := .ok []
  /-- error of `GetNextTestRunID`. -/
  nextRunIDRes : Option GoErr := none
  /-- error of `Instrument`. -/
  instrumentRes : Option GoErr := none
  /-- keys of `config.Test.SelectedTests` (empty means run all sets). -/
  selectedTests : List String := []
  /-- outcome of `RunTestSet` for each test set ID. -/
  perSet : String → TestSetStatus × Option GoErr := fun _ => (.passed, none)

/-- Observable outcome of `Start`: the returned error (`none` is Go `nil`),
the test sets on which `RunTestSet` was invoked, whether the `TestRun`
telemetry event of line 188 was emitted, and whether the summary of line 191
was printed. -/
structure StartOutcome where
  ret : Option GoErr
  setsRun : List String
  telemetry : Bool
  summary : Bool
  deriving DecidableEq, Repr

namespace Replayer

/-- The test-set loop of `Start` (lines 140-193) followed by the telemetry
emission (188) and the summary (190-192). Faithful points: sets outside a
nonempty selection are skipped (141-143); a non-nil `RunTestSet` error is
returned as-is when it is `context.Canceled` and wrapped otherwise (146-153);
APP_HALTED / INTERNAL_ERR / FAULT_USER_APP set the abort flag and break
(154-163, 173-175), after which telemetry still runs but the summary does
not; USER_ABORT returns nil immediately (164-165), before the telemetry. -/
def startLoop (env : StartEnv) : List String → List String → StartOutcome
  | [], acc => ⟨none, acc, true, true⟩
  | id :: rest, acc =>
    if env.selectedTests ≠ [] ∧ id ∉ env.selectedTests then
      startLoop env rest acc
    else
      match env.perSet id with
      | (_, some e) => ⟨some e, acc ++ [id], false, false⟩
      | (st, none) =>
        match st with
        | .userAbort => ⟨none, acc ++ [id], false, false⟩
        | .appHalted => ⟨none, acc ++ [id], true, false⟩
        | .internalErr => ⟨none, acc ++ [id], true, false⟩
        | .faultUserApp => ⟨none, acc ++ [id], true, false⟩
        | _ => startLoop env rest (acc ++ [id])

/-- `Start` (lines 68-194). `GetAllTestSetIDs` errors are returned (97-105);
an empty test-set list yields a user-facing error before anything is run or
written (107-112); then `GetNextTestRunID` (114-122) and `Instrument`
(125-133) may fail; otherwise the test-set loop runs. -/
def Start (env : StartEnv) : StartOutcome :=
  match env.allTestSetIDs with
  | .error e => ⟨some e, [], false, false⟩
  | .ok ids =>
    if ids.isEmpty then ⟨some .other, [], false, false⟩
    else
      match env.nextRunIDRes with
      | some e => ⟨some e, [], false, false⟩
      | none =>
        match env.instrumentRes with
        | some e => ⟨some e, [], false, false⟩
        | none => startLoop env ids []

end Replayer

/-- Decimal value of a digit-character list. -/
def digitsVal (cs : List Char) : Nat :=
  cs.foldl (fun a c => a * 10 + (c.toNat - 48)) 0

/-- Modelled from the spec: `pkg.LastID` is not part of this repository; per
section 6.4 run IDs follow the template `test-run-<n>`, so `runNum` reads the
numeric suffix after the 9-character template prefix. -/
def runNum (s : String) : Nat := digitsVal (s.data.drop 9)

/-- Decimal digit characters of `n`, most significant first, with explicit
fuel so the recursion is structural. -/
def natDigitsAux : Nat → Nat → List Char → List Char
  | 0, _, acc => acc
  | fuel+1, n, acc =>
    let d := Char.ofNat (48 + n % 10)
    if n < 10 then d :: acc else natDigitsAux fuel (n / 10) (d :: acc)

/-- Decimal rendering of a natural number. -/
def natStr (n : Nat) : String := ⟨natDigitsAux (n + 1) n []⟩

/-- Larger of two naturals, kept as a plain conditional. -/
def maxNat (a b : Nat) : Nat := if a ≤ b then b else a

/-- Modelled from the spec: the most recent existing run ID, i.e. the
template instantiated at the largest numeric suffix among `ids`. -/
def lastID (ids : List String) : String :=
  "test-run-" ++ natStr (ids.foldl (fun a s => maxNat a (runNum s)) 0)

namespace Replayer

/-- The run-ID selection of `Normalize` (lines 786-796): `testRun` is the
string zero value and is assigned only inside the branch taken when no run is
configured; in the other branch the configured value is never copied into
`testRun`, which therefore stays `""`. -/
def chooseNormalizeRun (configured : String) (allRunIDs : List String) : String :=
  if configured = "" then lastID allRunIDs else ""

end Replayer

/-- The slice of a stored test case that `NormalizeTestCases` touches: its
name and its recorded `HTTPResp` (the response modelled opaquely). -/
structure NormCase where
  name : String
  resp : String
  deriving DecidableEq, Repr

/-- A models.TestResult as read from the chosen run's report: case ID, the
verdict, and the live response `Res` recorded for it. -/
structure NormResult where
  testCaseID : String
  status : TestStatus
  res : String
  deriving DecidableEq, Repr

/-- The `testCaseResultMap` of lines 833, 850-852: results are inserted in
order, so for duplicate IDs the last entry wins. -/
def lookupResult (results : List NormResult) (name : String) : Option NormResult :=
  results.reverse.find? (fun r => r.testCaseID = name)

namespace Replayer

/-- The per-case rewrite of `NormalizeTestCases` (lines 840-867) as the
function from one stored case to its post-run state: non-selected cases are
untouched, cases absent from the report are skipped (855-858), cases PASSED
in the report are skipped (859-861), every other selected case has its
stored `HTTPResp` overwritten with the live `Res` of that run (862-866). -/
def normalizeCase (results : List NormResult) (selectedIDs : List String)
    (c : NormCase) : NormCase :=
  if selectedIDs ≠ [] ∧ c.name ∉ selectedIDs then c
  else
    match lookupResult results c.name with
    | none => c
    | some r => if r.status = .passed then c else { c with resp := r.res }

/-- `NormalizeTestCases` (lines 823-869) as the transformation it applies to
the stored test cases of the set. -/
def NormalizeTestCases (results : List NormResult) (selectedIDs : List String)
    (cases : List NormCase) : List NormCase :=
  cases.map (normalizeCase results selectedIDs)

end Replayer

/-- Projection of a trace onto the `SetMocks` and `SimulateRequest` events:
the two calls whose relative order the mock-window protocol constrains. -/
def mocksAndSims (tr : List Ev) : List Ev :=
  tr.filter (fun e =>
    match e with
    | .setMocks _ _ => true
    | .simulate _ => true
    | _ => false)

/-- The prefix of the stored cases that the loop actually drives (reaches the
`SimulateRequest` of): selection misses are skipped, and a case after which
the loop breaks — one that was simulated and then hit a nil comparison
`Result` or an `InsertTestCaseResult` error — is the last driven case. -/
def drivenCases (env : RunEnv) : List CaseRun → List CaseRun
  | [] => []
  | c :: rest =>
    if env.selected ≠ [] ∧ c.tc.name ∉ env.selected then drivenCases env rest
    else if c.out.simOk ∧ (c.out.resNil ∨ ¬c.out.insOk) then [c]
    else c :: drivenCases env rest

/-- The union, in drive order, of the consumed-mock name lists fetched via
`GetConsumedMocks` after each successfully simulated case, cut off at the
same break points as the loop. -/
def consumedUnion (env : RunEnv) : List CaseRun → List String
  | [] => []
  | c :: rest =>
    if env.selected ≠ [] ∧ c.tc.name ∉ env.selected then consumedUnion env rest
    else
      match c.out.exitSignal with
      | some _ => []
      | none =>
        if env.basePath = "" ∧ ¬c.out.mockFetchOk then []
        else if env.basePath = "" ∧ ¬c.out.setMocksOk then []
        else if env.dockerKind ∧ env.basePath = "" ∧ ¬c.out.hostOk then []
        else if ¬c.out.simOk then consumedUnion env rest
        else
          c.out.consumed ++
            (if c.out.resNil ∨ ¬c.out.insOk then [] else consumedUnion env rest)

/-- Counts the `SimulateRequest` events of a trace. -/
def simCount (tr : List Ev) : Nat :=
  tr.countP (fun e => match e with | .simulate _ => true | _ => false)

/-- Bool form of the per-case selection test of line 397: a case is driven
iff no per-set selection is configured or its name is in the selection. -/
def caseSelected (env : RunEnv) (c : CaseRun) : Bool :=
  env.selected.isEmpty || decide (c.tc.name ∈ env.selected)

/-- A set with a single stored case whose `SimulateRequest` call errors;
everything else succeeds. -/
def envC1x : RunEnv :=
  { getTestCases := .ok [⟨⟨"tc-1", 5, 9⟩, { simOk := false }⟩] }

/-- Two stored cases that both pass cleanly. -/
def casesC1w : List CaseRun :=
  [⟨⟨"tc-1", 5, 9⟩, {}⟩, ⟨⟨"tc-2", 11, 13⟩, {}⟩]

/-- A clean all-passing run over `casesC1w` whose per-set selection names
exactly the two stored cases. -/
def envC1s : RunEnv :=
  { getTestCases := .ok casesC1w, selected := ["tc-2", "tc-1"] }

/-- One stored clean case, with a per-set selection that also names a test
absent from the store: `testCasesCount` counts the ghost name while only the
stored case is driven. -/
def envGhost : RunEnv :=
  { getTestCases := .ok [⟨⟨"tc-1", 5, 9⟩, {}⟩], selected := ["tc-1", "ghost"] }

/-- A single passing case whose `InsertTestCaseResult` call errors. -/
def envC2a : RunEnv :=
  { getTestCases := .ok [⟨⟨"tc-1", 5, 9⟩, { insOk := false }⟩] }

/-- Two stored cases; the first fails comparison with a nil `Result`, which
makes the loop break before the second is driven. -/
def envC2b : RunEnv :=
  { getTestCases := .ok
      [⟨⟨"tc-1", 5, 9⟩, { pass := false, resNil := true }⟩,
       ⟨⟨"tc-2", 11, 13⟩, {}⟩] }

/-- Three stored cases; the middle one's `SimulateRequest` errors (the loop
continues past it). -/
def casesC3w : List CaseRun :=
  [⟨⟨"tc-a", 1, 2⟩, {}⟩, ⟨⟨"tc-b", 3, 4⟩, { simOk := false }⟩,
   ⟨⟨"tc-c", 5, 6⟩, {}⟩]

/-- A run over `casesC3w` with distinguishable base and current times. -/
def envC3w : RunEnv :=
  { baseTime := 100, now := 200, getTestCases := .ok casesC3w }

/-- A one-case set whose parent scope is canceled during the warmup delay. -/
def renvC6 : RunEnv :=
  { getTestCases := .ok [⟨⟨"tc-1", 1, 2⟩, {}⟩], canceledDuringDelay := true }

/-- One test set whose runner reports `(USER_ABORT, nil)`. -/
def senvC6 : StartEnv :=
  { allTestSetIDs := .ok ["ts-1"], perSet := fun _ => (.userAbort, none) }

/-- One test set whose runner outcome is exactly what `RunTestSet` produces
for the delay-canceled environment `renvC6`. -/
def senvC6x : StartEnv :=
  { allTestSetIDs := .ok ["ts-0"],
    perSet := fun _ => ((Replayer.RunTestSet renvC6).status, (Replayer.RunTestSet renvC6).err) }

/-- A test set whose `GetTestCases` returns the empty list. -/
def envC7x : RunEnv := { getTestCases := .ok [] }

/-- An empty test set driven in override base-URL mode. -/
def envC7w : RunEnv :=
  { basePath := "https://api.test/prefix", getTestCases := .ok [] }

/-- Two passing cases with overlapping consumed-mock name lists. -/
def casesC8w : List CaseRun :=
  [⟨⟨"tc-a", 1, 2⟩, { consumed := ["m1"] }⟩,
   ⟨⟨"tc-b", 3, 4⟩, { consumed := ["m3", "m1"] }⟩]

/-- A pruning-enabled clean run over `casesC8w`. -/
def envC8w : RunEnv :=
  { removeUnusedMocks := true, getTestCases := .ok casesC8w }

/-- A store with no test sets at all. -/
def senvC9 : StartEnv := { allTestSetIDs := .ok [] }

/-- Two test sets; the first one's runner reports `(APP_HALTED, nil)`. -/
def senvC10 : StartEnv :=
  { allTestSetIDs := .ok ["ts-1", "ts-2"], perSet := fun _ => (.appHalted, none) }

namespace Replayer

/-- On a run whose every case clears all infrastructure steps (no exit
signal, mock updates, host rewrites, simulations and result inserts all
succeed, comparison results non-nil) and with no per-set selection, the loop
counters count exactly the comparison verdicts, and the loop status is
`FAILED` exactly when some comparison failed. -/
theorem runLoop_clean (env : RunEnv) (cases : List CaseRun) (st : LoopSt)
    (hsel : env.selected = [])
    (hclean : ∀ c ∈ cases, c.out.exitSignal = none ∧ c.out.mockFetchOk = true ∧
      c.out.setMocksOk = true ∧ c.out.hostOk = true ∧ c.out.simOk = true ∧
      c.out.resNil = false ∧ c.out.insOk = true) :
    (runLoop env st cases).1.success
        = st.success + cases.countP (fun c => c.out.pass) ∧
    (runLoop env st cases).1.failure
        = st.failure + cases.countP (fun c => !c.out.pass) ∧
    (runLoop env st cases).1.status
        = (if cases.all (fun c => c.out.pass) then st.status else .failed) := by
  induction cases generalizing st with
  | nil => simp [runLoop]
  | cons c rest ih =>
    obtain ⟨h1, h2, h3, h4, h5, h6, h7⟩ := hclean c (List.mem_cons_self c rest)
    have hrest : ∀ x ∈ rest, x.out.exitSignal = none ∧ x.out.mockFetchOk = true ∧
        x.out.setMocksOk = true ∧ x.out.hostOk = true ∧ x.out.simOk = true ∧
        x.out.resNil = false ∧ x.out.insOk = true :=
      fun x hx => hclean x (List.mem_cons_of_mem c hx)
    by_cases hp : c.out.pass = true
    · obtain ⟨ihs, ihf, iht⟩ :=
        ih { st with
              success := st.success + 1,
              consumed := (if env.basePath = "" ∧ env.removeUnusedMocks then
                  st.consumed ++ c.out.consumed else st.consumed) } hrest
      simp [runLoop, hsel, h1, h2, h3, h4, h5, h6, h7, hp, ihs, ihf, iht,
        List.countP_cons]
      omega
    · obtain ⟨ihs, ihf, iht⟩ :=
        ih { st with
              failure := st.failure + 1,
              status := .failed,
              consumed := (if env.basePath = "" ∧ env.removeUnusedMocks then
                  st.consumed ++ c.out.consumed else st.consumed) } hrest
      simp [runLoop, hsel, h1, h2, h3, h4, h5, h6, h7, hp, ihs, ihf, iht,
        List.countP_cons]
      omega

/-- Counting the members of `sel` among a duplicate-free name list that
contains them all counts exactly the distinct selected names. -/
theorem countP_mem_eq_dedup_length (ns sel : List String)
    (hnd : ns.Nodup) (hsub : ∀ n ∈ sel, n ∈ ns) :
    ns.countP (fun n => decide (n ∈ sel)) = sel.dedup.length := by
  rw [List.countP_eq_length_filter]
  have h1 : (ns.filter (fun n => decide (n ∈ sel))).Nodup := hnd.filter _
  rw [← List.toFinset_card_of_nodup h1, ← List.card_toFinset]
  congr 1
  ext a
  simp only [List.mem_toFinset, List.mem_filter, decide_eq_true_eq]
  exact ⟨fun h => h.2, fun h => ⟨hsub a h, h⟩⟩

/-- The number of stored cases whose name is in the selection equals the
number of distinct selected names, provided stored case names are
duplicate-free and every selected name is stored. -/
theorem countP_selected_eq (cases : List CaseRun) (sel : List String)
    (hnd : (cases.map (fun c => c.tc.name)).Nodup)
    (hsub : ∀ n ∈ sel, n ∈ cases.map (fun c => c.tc.name)) :
    cases.countP (fun c => decide (c.tc.name ∈ sel)) = sel.dedup.length := by
  have h := countP_mem_eq_dedup_length (cases.map (fun c => c.tc.name)) sel hnd
    hsub
  rw [List.countP_map] at h
  exact h

/-- Selection-aware version of `runLoop_clean`: on a run whose every case
clears all infrastructure steps, the loop counters count the comparison
verdicts of exactly the selected cases, and the loop status is FAILED
exactly when some selected case failed comparison. -/
theorem runLoop_clean_sel (env : RunEnv) (cases : List CaseRun) (st : LoopSt)
    (hclean : ∀ c ∈ cases, c.out.exitSignal = none ∧ c.out.mockFetchOk = true ∧
      c.out.setMocksOk = true ∧ c.out.hostOk = true ∧ c.out.simOk = true ∧
      c.out.resNil = false ∧ c.out.insOk = true) :
    (runLoop env st cases).1.success
        = st.success + cases.countP (fun c => caseSelected env c && c.out.pass) ∧
    (runLoop env st cases).1.failure
        = st.failure + cases.countP (fun c => caseSelected env c && !c.out.pass) ∧
    (runLoop env st cases).1.status
        = (if cases.all (fun c => !caseSelected env c || c.out.pass) then
            st.status else .failed) := by
  induction cases generalizing st with
  | nil => simp [runLoop]
  | cons c rest ih =>
    obtain ⟨h1, h2, h3, h4, h5, h6, h7⟩ := hclean c (List.mem_cons_self c rest)
    have hrest : ∀ x ∈ rest, x.out.exitSignal = none ∧ x.out.mockFetchOk = true ∧
        x.out.setMocksOk = true ∧ x.out.hostOk = true ∧ x.out.simOk = true ∧
        x.out.resNil = false ∧ x.out.insOk = true :=
      fun x hx => hclean x (List.mem_cons_of_mem c hx)
    by_cases hskip : env.selected ≠ [] ∧ c.tc.name ∉ env.selected
    · have hie : env.selected.isEmpty = false := by
        cases hsel2 : env.selected with
        | nil => exact absurd hsel2 hskip.1
        | cons a l => rfl
      have hcs : caseSelected env c = false := by
        simp [caseSelected, hie, hskip.2]
      obtain ⟨ihs, ihf, iht⟩ := ih st hrest
      simp [runLoop, hskip, ihs, ihf, iht, List.countP_cons, hcs]
    · have hcs : caseSelected env c = true := by
        rcases not_and_or.mp hskip with h | h
        · simp [caseSelected, not_not.mp h]
        · simp [caseSelected, not_not.mp h]
      by_cases hp : c.out.pass = true
      · obtain ⟨ihs, ihf, iht⟩ :=
          ih { st with
                success := st.success + 1,
                consumed := (if env.basePath = "" ∧ env.removeUnusedMocks then
                    st.consumed ++ c.out.consumed else st.consumed) } hrest
        simp [runLoop, hskip, h1, h2, h3, h4, h5, h6, h7, hp, ihs, ihf, iht,
          List.countP_cons, hcs]
        omega
      · obtain ⟨ihs, ihf, iht⟩ :=
          ih { st with
                failure := st.failure + 1,
                status := .failed,
                consumed := (if env.basePath = "" ∧ env.removeUnusedMocks then
                    st.consumed ++ c.out.consumed else st.consumed) } hrest
        simp [runLoop, hskip, h1, h2, h3, h4, h5, h6, h7, hp, ihs, ihf, iht,
          List.countP_cons, hcs]
        omega

/-- Filtering a trace to mock/simulate events distributes over append. -/
theorem mocksAndSims_append (a b : List Ev) :
    mocksAndSims (a ++ b) = mocksAndSims a ++ mocksAndSims b := by
  simp [mocksAndSims]

/-- Filtering the empty trace. -/
theorem mocksAndSims_nil : mocksAndSims ([] : List Ev) = [] := rfl

/-- One step of the mock/simulate projection. -/
theorem mocksAndSims_cons (e : Ev) (tr : List Ev) :
    mocksAndSims (e :: tr) =
      (match e with
        | .setMocks a b => [Ev.setMocks a b]
        | .simulate n => [Ev.simulate n]
        | _ => []) ++ mocksAndSims tr := by
  cases e <;> simp [mocksAndSims]

/-- Trace shape of the per-case loop when no override base path is set and
every case clears the exit check, the mock update and the host rewrite: each
driven case contributes exactly the pair `SetMocks [req, resp]` followed by
its `SimulateRequest`, in storage order. -/
theorem runLoop_trace (env : RunEnv) (cases : List CaseRun) (st : LoopSt)
    (hbp : env.basePath = "")
    (hc : ∀ c ∈ cases, c.out.exitSignal = none ∧ c.out.mockFetchOk = true ∧
      c.out.setMocksOk = true ∧ c.out.hostOk = true) :
    mocksAndSims (runLoop env st cases).2 =
      (drivenCases env cases).flatMap
        (fun c => [Ev.setMocks c.tc.reqTs c.tc.respTs, Ev.simulate c.tc.name]) := by
  induction cases generalizing st with
  | nil => simp [runLoop, drivenCases, mocksAndSims]
  | cons c rest ih =>
    obtain ⟨h1, h2, h3, h4⟩ := hc c (List.mem_cons_self c rest)
    have hrest : ∀ x ∈ rest, x.out.exitSignal = none ∧ x.out.mockFetchOk = true ∧
        x.out.setMocksOk = true ∧ x.out.hostOk = true :=
      fun x hx => hc x (List.mem_cons_of_mem c hx)
    have IH : ∀ s : LoopSt, mocksAndSims (runLoop env s rest).2 =
        (drivenCases env rest).flatMap
          (fun c => [Ev.setMocks c.tc.reqTs c.tc.respTs, Ev.simulate c.tc.name]) :=
      fun s => ih s hrest
    by_cases hskip : env.selected ≠ [] ∧ c.tc.name ∉ env.selected
    · simp [runLoop, drivenCases, hskip, IH]
    · by_cases hsim : c.out.simOk = true
      · by_cases hres : c.out.resNil = true
        · simp [runLoop, drivenCases, hskip, h1, h2, h3, h4, hbp, hsim, hres,
            mocksAndSims_cons, mocksAndSims_nil]
        · by_cases hins : c.out.insOk = true
          · simp [runLoop, drivenCases, hskip, h1, h2, h3, h4, hbp, hsim, hres,
              hins, mocksAndSims_cons, IH]
          · simp [runLoop, drivenCases, hskip, h1, h2, h3, h4, hbp, hsim, hres,
              hins, mocksAndSims_cons, mocksAndSims_nil]
      · simp [runLoop, drivenCases, hskip, h1, h2, h3, h4, hbp, hsim,
          mocksAndSims_cons, IH]

/-- When no override base path is set and pruning is enabled, the
`totalConsumedMocks` accumulator of the loop ends as the initial contents
followed by the consumed-mock names of every successfully simulated driven
case. -/
theorem runLoop_consumed (env : RunEnv) (cases : List CaseRun) (st : LoopSt)
    (hbp : env.basePath = "") (hru : env.removeUnusedMocks = true) :
    (runLoop env st cases).1.consumed = st.consumed ++ consumedUnion env cases := by
  induction cases generalizing st with
  | nil => simp [runLoop, consumedUnion]
  | cons c rest ih =>
    by_cases hskip : env.selected ≠ [] ∧ c.tc.name ∉ env.selected
    · simp [runLoop, consumedUnion, hskip, ih]
    · cases hE : c.out.exitSignal with
      | some s => simp [runLoop, consumedUnion, hskip, hE]
      | none =>
        by_cases hmf : c.out.mockFetchOk = true
        · by_cases hsm : c.out.setMocksOk = true
          · by_cases hdk : env.dockerKind = true
            · by_cases hho : c.out.hostOk = true
              · by_cases hsim : c.out.simOk = true
                · by_cases hp : c.out.pass = true
                  · by_cases hres : c.out.resNil = true
                    · simp [runLoop, consumedUnion, hskip, hE, hmf, hsm, hbp,
                        hru, hdk, hho, hsim, hp, hres]
                    · by_cases hins : c.out.insOk = true
                      · simp [runLoop, consumedUnion, hskip, hE, hmf, hsm, hbp,
                          hru, hdk, hho, hsim, hp, hres, hins, ih]
                      · simp [runLoop, consumedUnion, hskip, hE, hmf, hsm, hbp,
                          hru, hdk, hho, hsim, hp, hres, hins]
                  · by_cases hres : c.out.resNil = true
                    · simp [runLoop, consumedUnion, hskip, hE, hmf, hsm, hbp,
                        hru, hdk, hho, hsim, hp, hres]
                    · by_cases hins : c.out.insOk = true
                      · simp [runLoop, consumedUnion, hskip, hE, hmf, hsm, hbp,
                          hru, hdk, hho, hsim, hp, hres, hins, ih]
                      · simp [runLoop, consumedUnion, hskip, hE, hmf, hsm, hbp,
                          hru, hdk, hho, hsim, hp, hres, hins]
                · simp [runLoop, consumedUnion, hskip, hE, hmf, hsm, hbp, hdk,
                    hho, hsim, ih]
              · simp [runLoop, consumedUnion, hskip, hE, hmf, hsm, hbp, hdk, hho]
            · by_cases hsim : c.out.simOk = true
              · by_cases hp : c.out.pass = true
                · by_cases hres : c.out.resNil = true
                  · simp [runLoop, consumedUnion, hskip, hE, hmf, hsm, hbp, hru,
                      hdk, hsim, hp, hres]
                  · by_cases hins : c.out.insOk = true
                    · simp [runLoop, consumedUnion, hskip, hE, hmf, hsm, hbp,
                        hru, hdk, hsim, hp, hres, hins, ih]
                    · simp [runLoop, consumedUnion, hskip, hE, hmf, hsm, hbp,
                        hru, hdk, hsim, hp, hres, hins]
                · by_cases hres : c.out.resNil = true
                  · simp [runLoop, consumedUnion, hskip, hE, hmf, hsm, hbp, hru,
                      hdk, hsim, hp, hres]
                  · by_cases hins : c.out.insOk = true
                    · simp [runLoop, consumedUnion, hskip, hE, hmf, hsm, hbp,
                        hru, hdk, hsim, hp, hres, hins, ih]
                    · simp [runLoop, consumedUnion, hskip, hE, hmf, hsm, hbp,
                        hru, hdk, hsim, hp, hres, hins]
              · simp [runLoop, consumedUnion, hskip, hE, hmf, hsm, hbp, hdk,
                  hsim, ih]
          · simp [runLoop, consumedUnion, hskip, hE, hmf, hsm, hbp]
        · simp [runLoop, consumedUnion, hskip, hE, hmf, hbp]

/-- The per-case loop never emits an `UpdateMocks` (pruning) event. -/
theorem runLoop_no_prune (env : RunEnv) (cases : List CaseRun) (st : LoopSt)
    (ms : List String) : Ev.prune ms ∉ (runLoop env st cases).2 := by
  induction cases generalizing st with
  | nil => simp [runLoop]
  | cons c rest ih =>
    by_cases hskip : env.selected ≠ [] ∧ c.tc.name ∉ env.selected
    · simp [runLoop, hskip, ih]
    · cases hE : c.out.exitSignal with
      | some s => simp [runLoop, hskip, hE]
      | none =>
        by_cases hbp : env.basePath = ""
          <;> by_cases hmf : c.out.mockFetchOk = true
          <;> by_cases hsm : c.out.setMocksOk = true
          <;> by_cases hdk : env.dockerKind = true
          <;> by_cases hho : c.out.hostOk = true
          <;> by_cases hsim : c.out.simOk = true
          <;> by_cases hres : c.out.resNil = true
          <;> by_cases hins : c.out.insOk = true
          <;> simp [runLoop, hskip, hE, hbp, hmf, hsm, hdk, hho, hsim, hres,
                hins, ih]

/-- A run with no override base path whose pre-loop collaborator calls all
succeed proceeds to the report-seeding and loop phases. -/
theorem RunTestSet_reaches (env : RunEnv) (cases : List CaseRun)
    (hbp : env.basePath = "") (hget : env.getTestCases = .ok cases)
    (hne : cases.isEmpty = false)
    (hsf : env.startFetchRes = none) (hss : env.startSetRes = none)
    (hcd : env.canceledDuringDelay = false)
    (hdock : env.dockerKind = false ∨ env.containerIPRes = none) :
    RunTestSet env = finishRun env cases [.setMocks env.baseTime env.now] := by
  rcases hdock with hdk | hip
  · simp [RunTestSet, hbp, hget, hne, hsf, hss, hcd, hdk]
  · by_cases hdk : env.dockerKind = true
    · simp [RunTestSet, hbp, hget, hne, hsf, hss, hcd, hdk, hip]
    · simp [RunTestSet, hbp, hget, hne, hsf, hss, hcd, hdk]

/-- The terminal report inserted by `finishRun` when the initial and final
`InsertReport` calls succeed and the post-script (when active) does not
fail. -/
theorem finishRun_report (env : RunEnv) (cases : List CaseRun) (tr0 : List Ev)
    (hinit : env.insertInitialRes = none)
    (hpost : ¬(env.basePath ≠ "" ∧ ¬env.postScriptOk = true))
    (hfin : env.insertFinalOk = true) :
    (finishRun env cases tr0).report =
      some ⟨testCasesCount env cases, (runLoop env {} cases).1.success,
        (runLoop env {} cases).1.failure, finalStatus env cases⟩ := by
  simp only [finishRun, hinit, hfin]
  rw [if_neg hpost]
  simp only [not_true_eq_false, if_false]
  split <;> rfl

/-- The status returned by `finishRun` under the same conditions. -/
theorem finishRun_status (env : RunEnv) (cases : List CaseRun) (tr0 : List Ev)
    (hinit : env.insertInitialRes = none)
    (hpost : ¬(env.basePath ≠ "" ∧ ¬env.postScriptOk = true))
    (hfin : env.insertFinalOk = true) :
    (finishRun env cases tr0).status = finalStatus env cases := by
  simp only [finishRun, hinit, hfin]
  rw [if_neg hpost]
  simp only [not_true_eq_false, if_false]
  split <;> rfl

/-- C4: the app-supervisor error received on `appErrChan` is classified into
`testSetStatusByErrChan` as: `ErrCommandError` to FAULT_USER_APP;
`ErrAppStopped`, `ErrUnExpected` and any unrecognized kind to APP_HALTED;
`ErrInternal` to INTERNAL_ERR; `ErrCtxCanceled` is swallowed with no status
set; and parent-scope cancellation (the `runTestSetCtx.Done()` arm, taken
when no classified error arrived first) yields USER_ABORT. -/
theorem C4_app_error_classification :
    watcherStatus (.appErr .errCommandError) = some .faultUserApp ∧
    watcherStatus (.appErr .errAppStopped) = some .appHalted ∧
    watcherStatus (.appErr .errUnExpected) = some .appHalted ∧
    watcherStatus (.appErr .errOther) = some .appHalted ∧
    watcherStatus (.appErr .errInternal) = some .internalErr ∧
    watcherStatus (.appErr .errCtxCanceled) = none ∧
    watcherStatus .ctxDone = some .userAbort := by
  decide

/-- C9: when `GetAllTestSetIDs` returns an empty list, `Start` returns a
(non-cancellation) user-facing error, no test set is run, and nothing is
written or emitted. -/
theorem C9_no_test_sets_error (env : StartEnv)
    (h : env.allTestSetIDs = .ok []) :
    Start env = ⟨some .other, [], false, false⟩ := by
  simp [Start, h]

/-- C9 witness at the concrete empty store `senvC9`. -/
theorem C9_no_test_sets_error_witness :
    Start senvC9 = ⟨some .other, [], false, false⟩ :=
  C9_no_test_sets_error senvC9 rfl

/-- C10: when a selected test set's runner reports APP_HALTED, INTERNAL_ERR
or FAULT_USER_APP with a nil error, `Start` stops driving test sets (the
remaining ones are skipped), does not print the summary, still emits the
`TestRun` telemetry event, and returns a nil error. -/
theorem C10_abort_statuses_nil_return (env : StartEnv) (id : String)
    (rest : List String) (s : TestSetStatus)
    (hids : env.allTestSetIDs = .ok (id :: rest))
    (hnr : env.nextRunIDRes = none) (hin : env.instrumentRes = none)
    (hsel : env.selectedTests = [])
    (hps : env.perSet id = (s, none))
    (hs : s = .appHalted ∨ s = .internalErr ∨ s = .faultUserApp) :
    Start env = ⟨none, [id], true, false⟩ := by
  rcases hs with h | h | h <;> subst h <;>
    simp [Start, startLoop, hids, hnr, hin, hsel, hps]

/-- C10 witness: `senvC10` holds two test sets and the first halts the app;
`Start` runs only the first, emits telemetry, skips the summary and returns
nil. -/
theorem C10_abort_statuses_nil_return_witness :
    Start senvC10 = ⟨none, ["ts-1"], true, false⟩ :=
  C10_abort_statuses_nil_return senvC10 "ts-1" ["ts-2"] .appHalted rfl rfl rfl
    rfl rfl (Or.inl rfl)

/-- C2 evaluation at the failing inputs: in `envC2a` the only case passes but
`InsertTestCaseResult` errors, so the loop breaks — yet the terminal report
keeps status PASSED instead of INTERNAL_ERR, because the `loopErr` consulted
after the loop (line 545) is the outer variable of line 393, which the inner
declaration of line 427 shadows, so the check never fires. In `envC2b` the
comparison `Result` is nil for the first case, the loop breaks (only one
`SimulateRequest` happens), and the terminal status is FAILED, again not
INTERNAL_ERR. -/
theorem C2_loop_break_status_evaluation :
    (RunTestSet envC2a).report = some ⟨1, 1, 0, .passed⟩ ∧
    (RunTestSet envC2a).status ≠ .internalErr ∧
    (RunTestSet envC2b).report = some ⟨2, 0, 1, .failed⟩ ∧
    (RunTestSet envC2b).status ≠ .internalErr ∧
    simCount (RunTestSet envC2b).trace = 1 := by
  decide

/-- C5 evaluation: with a configured `Normalize.TestRun` the code hands the
empty string to `NormalizeTestCases` — the configured ID is checked at line
787 but never assigned to `testRun` — while the unconfigured default does
pick the most recent run; and `NormalizeTestCases` overwrites the stored
response of exactly the non-PASSED cases present in the report, leaving
PASSED and unreported cases unchanged. -/
theorem C5_normalize_run_and_rewrite :
    chooseNormalizeRun "test-run-5" ["test-run-1", "test-run-5"] = "" ∧
    ("" : String) ≠ "test-run-5" ∧
    chooseNormalizeRun "" ["test-run-1", "test-run-5"] = "test-run-5" ∧
    NormalizeTestCases
        [⟨"tc-1", .failed, "live-1"⟩, ⟨"tc-2", .passed, "live-2"⟩]
        []
        [⟨"tc-1", "rec-1"⟩, ⟨"tc-2", "rec-2"⟩, ⟨"tc-3", "rec-3"⟩] =
      [⟨"tc-1", "live-1"⟩, ⟨"tc-2", "rec-2"⟩, ⟨"tc-3", "rec-3"⟩] := by
  decide

/-- C7 counterexample: for a set whose `GetTestCases` returns the empty
list, `RunTestSet` returns PASSED immediately, but no report at all is
recorded for the set (the early return at lines 301-303 precedes both
`InsertReport` calls), so no report with `Total = 0` exists. -/
theorem C7_no_report_counterexample :
    (RunTestSet envC7x).status = .passed ∧ (RunTestSet envC7x).report = none ∧
    (RunTestSet envC7x).trace = [] := by
  decide

/-- C7 (amended): if `GetTestCases` returns an empty list (and override-mode
preamble, when active, succeeds), `RunTestSet` returns PASSED immediately
with a nil error, and no report is recorded for that set. -/
theorem C7_empty_cases_passed (env : RunEnv)
    (hconf : env.confFound = true) (hpre : env.preScriptOk = true)
    (hget : env.getTestCases = .ok []) :
    (RunTestSet env).status = .passed ∧ (RunTestSet env).err = none ∧
    (RunTestSet env).trace = [] ∧ (RunTestSet env).report = none := by
  simp [RunTestSet, hconf, hpre, hget]

/-- C7 witness at the override-mode empty set `envC7w`. -/
theorem C7_empty_cases_passed_witness :
    (RunTestSet envC7w).status = .passed ∧ (RunTestSet envC7w).err = none ∧
    (RunTestSet envC7w).trace = [] ∧ (RunTestSet envC7w).report = none :=
  C7_empty_cases_passed envC7w rfl rfl rfl

/-- C1 counterexample, two failure modes. In `envC1x` the only case's
`SimulateRequest` errors, which increments `failure` and continues (lines
448-452) without touching `testSetStatus`: the terminal report is finalized
with status PASSED while `Failure = 1 ≠ 0` and `Success = 0 ≠ Total = 1`.
In `envGhost` the per-set selection names a test absent from the store:
`testCasesCount = len(selectedTests)` (lines 371-375) counts the ghost name
while the loop drives only the stored case (line 397), so the report is
finalized PASSED with `Success = 1 < Total = 2` even though every driven
case cleared every infrastructure step. -/
theorem C1_simulate_error_passed_report :
    (RunTestSet envC1x).report = some ⟨1, 0, 1, .passed⟩ ∧
    (1 : Nat) ≠ 0 ∧ (0 : Nat) ≠ 1 ∧
    (RunTestSet envGhost).report = some ⟨2, 1, 0, .passed⟩ ∧
    (1 : Nat) ≠ 2 := by
  decide

/-- C1 (amended): for a run in which every name of the per-set selection
refers to a stored test case (test-case names being unique within the set,
per the data-model invariant), every driven case's mock update, host
rewrite, `SimulateRequest` and `InsertTestCaseResult` succeed, the
comparison `Result` is never nil, and no app-error or abort signal fires, a
terminal report finalized with status PASSED has `Success = Total` and
`Failure = 0`. (As stated the claim fails in two ways — see the
counterexample: a `SimulateRequest` error increments `Failure` yet leaves
the status PASSED, and a selection naming an absent test makes `Total`
exceed the number of driven cases.) -/
theorem C1_passed_report_counts (env : RunEnv) (cases : List CaseRun)
    (rep : TestReport)
    (hbp : env.basePath = "") (hget : env.getTestCases = .ok cases)
    (hsf : env.startFetchRes = none) (hss : env.startSetRes = none)
    (hcd : env.canceledDuringDelay = false)
    (hdock : env.dockerKind = false ∨ env.containerIPRes = none)
    (hinit : env.insertInitialRes = none)
    (hfe : env.finalExit = none)
    (hnodup : (cases.map (fun c => c.tc.name)).Nodup)
    (hsub : ∀ n ∈ env.selected, n ∈ cases.map (fun c => c.tc.name))
    (hclean : ∀ c ∈ cases, c.out.exitSignal = none ∧ c.out.mockFetchOk = true ∧
      c.out.setMocksOk = true ∧ c.out.hostOk = true ∧ c.out.simOk = true ∧
      c.out.resNil = false ∧ c.out.insOk = true)
    (hrep : (RunTestSet env).report = some rep)
    (hst : rep.status = .passed) :
    rep.success = rep.total ∧ rep.failure = 0 := by
  by_cases hne : cases.isEmpty
  · rw [show RunTestSet env = ⟨.passed, none, [], none⟩ from by
      simp [RunTestSet, hbp, hget, hne]] at hrep
    simp at hrep
  · rw [RunTestSet_reaches env cases hbp hget (by simpa using hne) hsf hss hcd
      hdock] at hrep
    by_cases hfin : env.insertFinalOk = true
    · rw [finishRun_report env cases _ hinit (by simp [hbp]) hfin] at hrep
      obtain rfl := Option.some.inj hrep
      simp only at hst ⊢
      obtain ⟨hcs, hcf, hcst⟩ := runLoop_clean_sel env cases {} hclean
      simp only [finalStatus, hfe] at hst
      by_cases hgr : env.getResultsErr = true ∧ ¬env.ctxCanceledAtEnd = true
      · rw [if_pos hgr] at hst
        exact absurd hst (by simp)
      · rw [if_neg hgr] at hst
        rw [hst] at hcst
        by_cases hall : cases.all (fun c => !caseSelected env c || c.out.pass)
            = true
        · have hfail0 : cases.countP
              (fun c => caseSelected env c && !c.out.pass) = 0 := by
            rw [List.countP_eq_zero]
            intro a ha
            have hq := List.all_eq_true.mp hall a ha
            cases hcsa : caseSelected env a with
            | false => simp [hcsa]
            | true =>
              rw [hcsa] at hq
              simp at hq
              simp [hcsa, hq]
          have hsucc : cases.countP
                (fun c => caseSelected env c && c.out.pass)
              = cases.countP (fun c => caseSelected env c) := by
            rw [List.countP_eq_length_filter, List.countP_eq_length_filter]
            congr 1
            apply List.filter_congr
            intro a ha
            have hq := List.all_eq_true.mp hall a ha
            cases hcsa : caseSelected env a with
            | false => simp [hcsa]
            | true =>
              rw [hcsa] at hq
              simp at hq
              simp [hcsa, hq]
          have htot : cases.countP (fun c => caseSelected env c)
              = testCasesCount env cases := by
            by_cases hsel : env.selected = []
            · have hall1 : ∀ a ∈ cases, caseSelected env a = true := by
                intro a _
                simp [caseSelected, hsel]
              rw [testCasesCount, if_pos hsel]
              calc cases.countP (fun c => caseSelected env c)
                  = cases.countP (fun _ => true) := by
                    rw [List.countP_eq_length_filter,
                      List.countP_eq_length_filter]
                    congr 1
                    exact List.filter_congr (fun a ha => by simp [hall1 a ha])
                _ = cases.length := by simp
            · have hie : env.selected.isEmpty = false := by
                cases hsel2 : env.selected with
                | nil => exact absurd hsel2 hsel
                | cons a l => rfl
              have heq : ∀ a ∈ cases,
                  caseSelected env a = decide (a.tc.name ∈ env.selected) := by
                intro a _
                simp [caseSelected, hie]
              rw [testCasesCount, if_neg hsel]
              calc cases.countP (fun c => caseSelected env c)
                  = cases.countP (fun c => decide (c.tc.name ∈ env.selected))
                    := by
                    rw [List.countP_eq_length_filter,
                      List.countP_eq_length_filter]
                    congr 1
                    exact List.filter_congr heq
                _ = env.selected.dedup.length :=
                    countP_selected_eq cases env.selected hnodup hsub
          constructor
          · rw [hcs, hsucc, htot]
            simp
          · rw [hcf, hfail0]
        · rw [if_neg hall] at hcst
          exact absurd hcst.symm (by simp)
    · rw [show (finishRun env cases [Ev.setMocks env.baseTime env.now]).report
          = none from by
        simp only [finishRun, hinit]
        rw [if_neg (show ¬(env.basePath ≠ "" ∧ ¬env.postScriptOk = true) from by
          simp [hbp])]
        simp [hfin]] at hrep
      exact absurd hrep (by simp)

/-- C1 witness: the clean two-case run `envC1s`, whose selection names
exactly the two stored cases, finalizes the report `⟨2, 2, 0, PASSED⟩`,
whose counts satisfy the amended claim. -/
theorem C1_passed_report_counts_witness :
    (⟨2, 2, 0, .passed⟩ : TestReport).success
        = (⟨2, 2, 0, .passed⟩ : TestReport).total ∧
    (⟨2, 2, 0, .passed⟩ : TestReport).failure = 0 :=
  C1_passed_report_counts envC1s casesC1w ⟨2, 2, 0, .passed⟩ rfl rfl rfl rfl
    rfl (Or.inl rfl) rfl rfl (by decide) (by decide) (by decide) (by decide)
    rfl

/-- The mock/simulate projection of a `finishRun` trace is that of the
preceding phases followed by that of the loop: the report writes and the
pruning event contribute nothing to it. -/
theorem finishRun_mocksAndSims (env : RunEnv) (cases : List CaseRun)
    (tr0 : List Ev) (hinit : env.insertInitialRes = none) :
    mocksAndSims (finishRun env cases tr0).trace =
      mocksAndSims tr0 ++ mocksAndSims (runLoop env {} cases).2 := by
  simp only [finishRun, hinit]
  split
  · simp [mocksAndSims_append, mocksAndSims_cons]
  · split
    · simp [mocksAndSims_append, mocksAndSims_cons]
    · split <;> simp [mocksAndSims_append, mocksAndSims_cons, mocksAndSims_nil]

/-- C3: on a run with no override base path whose pre-loop phases succeed
and whose cases all clear the exit check, the mock update and the host
rewrite, the sequence of `SetMocks` and `SimulateRequest` calls is exactly:
one `SetMocks` with window `[BaseTime, now]` for the initial setup, then for
each driven case `i`, one `SetMocks` with window `[req_i.Timestamp,
resp_i.Timestamp]` immediately followed by `SimulateRequest_i` — so exactly
one `SetMocks` occurs between consecutive cases and it precedes the
corresponding simulation. -/
theorem C3_mock_window_per_case (env : RunEnv) (cases : List CaseRun)
    (hbp : env.basePath = "") (hget : env.getTestCases = .ok cases)
    (hne : cases.isEmpty = false)
    (hsf : env.startFetchRes = none) (hss : env.startSetRes = none)
    (hcd : env.canceledDuringDelay = false)
    (hdock : env.dockerKind = false ∨ env.containerIPRes = none)
    (hinit : env.insertInitialRes = none)
    (hc : ∀ c ∈ cases, c.out.exitSignal = none ∧ c.out.mockFetchOk = true ∧
      c.out.setMocksOk = true ∧ c.out.hostOk = true) :
    mocksAndSims (RunTestSet env).trace =
      Ev.setMocks env.baseTime env.now ::
        (drivenCases env cases).flatMap
          (fun c => [Ev.setMocks c.tc.reqTs c.tc.respTs,
            Ev.simulate c.tc.name]) := by
  rw [RunTestSet_reaches env cases hbp hget hne hsf hss hcd hdock,
    finishRun_mocksAndSims env cases _ hinit,
    runLoop_trace env cases {} hbp hc]
  simp [mocksAndSims]

/-- C3 witness: the three-case run `envC3w` (whose middle case's simulation
errors but is still driven) yields the window sequence
`[100,200], ([1,2]; sim a), ([3,4]; sim b), ([5,6]; sim c)`. -/
theorem C3_mock_window_per_case_witness :
    mocksAndSims (RunTestSet envC3w).trace =
      Ev.setMocks 100 200 ::
        (drivenCases envC3w casesC3w).flatMap
          (fun c => [Ev.setMocks c.tc.reqTs c.tc.respTs,
            Ev.simulate c.tc.name]) :=
  C3_mock_window_per_case envC3w casesC3w rfl rfl rfl rfl rfl rfl
    (Or.inl rfl) rfl (by decide)

/-- A pruning event in a `finishRun` trace that was not already in the
preceding phases pins down the whole eligibility context: the initial and
final report writes succeeded, pruning is enabled, the terminal status is
PASSED, no override base path is set, and the pruned set is the loop's
consumed-mock accumulator. -/
theorem finishRun_prune (env : RunEnv) (cases : List CaseRun) (tr0 : List Ev)
    (ms : List String) (h0 : Ev.prune ms ∉ tr0)
    (hpr : Ev.prune ms ∈ (finishRun env cases tr0).trace) :
    env.insertInitialRes = none ∧ env.insertFinalOk = true ∧
    env.removeUnusedMocks = true ∧ finalStatus env cases = .passed ∧
    env.basePath = "" ∧ ms = (runLoop env {} cases).1.consumed := by
  cases hI : env.insertInitialRes with
  | some e => simp [finishRun, hI, h0] at hpr
  | none =>
    simp only [finishRun, hI] at hpr
    split at hpr
    · simp [h0, runLoop_no_prune] at hpr
    · split at hpr
      · simp [h0, runLoop_no_prune] at hpr
      · rename_i hfin2
        split at hpr
        · rename_i hguard
          simp [h0, runLoop_no_prune] at hpr
          exact ⟨rfl, by simpa using hfin2, hguard.1, hguard.2.1, hguard.2.2, hpr⟩
        · simp [h0, runLoop_no_prune] at hpr

/-- C8: whenever `UpdateMocks` (unused-mock pruning) is invoked by
`RunTestSet`, pruning is enabled, the terminal status is PASSED and no
override base-URL is configured; and its argument is, as a set, the union of
the consumed-mock name lists fetched via `GetConsumedMocks` after each
simulated case. -/
theorem C8_prune_guard_and_argument (env : RunEnv) (cases : List CaseRun)
    (ms : List String) (hget : env.getTestCases = .ok cases)
    (hpr : Ev.prune ms ∈ (RunTestSet env).trace) :
    env.removeUnusedMocks = true ∧ (RunTestSet env).status = .passed ∧
    env.basePath = "" ∧ ms.toFinset = (consumedUnion env cases).toFinset := by
  by_cases hbp : env.basePath = ""
  · by_cases hEm : cases.isEmpty
    · rw [show RunTestSet env = ⟨.passed, none, [], none⟩ from by
        simp [RunTestSet, hbp, hget, hEm]] at hpr
      simp at hpr
    · cases hSF : env.startFetchRes with
      | some e =>
        rw [show RunTestSet env = ⟨.failed, some e, [], none⟩ from by
          simp [RunTestSet, hbp, hget, hEm, hSF]] at hpr
        simp at hpr
      | none =>
        cases hSS : env.startSetRes with
        | some e =>
          rw [show RunTestSet env
              = ⟨.failed, some e, [.setMocks env.baseTime env.now], none⟩ from by
            simp [RunTestSet, hbp, hget, hEm, hSF, hSS]] at hpr
          simp at hpr
        | none =>
          by_cases hcd : env.canceledDuringDelay = true
          · rw [show RunTestSet env
                = ⟨.userAbort, some .canceled, [.setMocks env.baseTime env.now],
                    none⟩ from by
              simp [RunTestSet, hbp, hget, hEm, hSF, hSS, hcd]] at hpr
            simp at hpr
          · cases hD : (if env.dockerKind = true then env.containerIPRes
                else none) with
            | some e =>
              rw [show RunTestSet env
                  = ⟨.failed, some e, [.setMocks env.baseTime env.now],
                      none⟩ from by
                simp [RunTestSet, hbp, hget, hEm, hSF, hSS, hcd, hD]] at hpr
              simp at hpr
            | none =>
              have hRT : RunTestSet env
                  = finishRun env cases [.setMocks env.baseTime env.now] := by
                simp [RunTestSet, hbp, hget, hEm, hSF, hSS, hcd, hD]
              rw [hRT] at hpr ⊢
              obtain ⟨hinit, hfin, hru, hfs, hbp2, hms⟩ :=
                finishRun_prune env cases _ ms (by simp) hpr
              refine ⟨hru, ?_, hbp2, ?_⟩
              · rw [finishRun_status env cases _ hinit (by simp [hbp2]) hfin]
                exact hfs
              · rw [hms, runLoop_consumed env cases {} hbp2 hru]
                simp
  · by_cases hconf : env.confFound = true
    · by_cases hpres : env.preScriptOk = true
      · by_cases hEm : cases.isEmpty
        · rw [show RunTestSet env = ⟨.passed, none, [], none⟩ from by
            simp [RunTestSet, hbp, hconf, hpres, hget, hEm]] at hpr
          simp at hpr
        · have hRT : RunTestSet env = finishRun env cases [] := by
            simp [RunTestSet, hbp, hconf, hpres, hget, hEm]
          rw [hRT] at hpr
          obtain ⟨_, _, _, _, hbp2, _⟩ :=
            finishRun_prune env cases _ ms (by simp) hpr
          exact absurd hbp2 hbp
      · rw [show RunTestSet env = ⟨.faultScript, some .other, [], none⟩ from by
          simp [RunTestSet, hbp, hconf, hpres]] at hpr
        simp at hpr
    · rw [show RunTestSet env = ⟨.failed, some .other, [], none⟩ from by
        simp [RunTestSet, hbp, hconf]] at hpr
      simp at hpr

/-- C8 witness: the pruning-enabled clean run `envC8w` invokes pruning with
the concatenated consumed names, equal as a set to their union. -/
theorem C8_prune_guard_and_argument_witness :
    envC8w.removeUnusedMocks = true ∧ (RunTestSet envC8w).status = .passed ∧
    envC8w.basePath = "" ∧
    (["m1", "m3", "m1"] : List String).toFinset =
      (consumedUnion envC8w casesC8w).toFinset :=
  C8_prune_guard_and_argument envC8w casesC8w ["m1", "m3", "m1"] rfl (by decide)

/-- C6 counterexample: cancel the parent scope of `renvC6` during the warmup
delay. The set ends with status USER_ABORT, yet `Start` over that runner
outcome returns `context.Canceled`, not nil: `RunTestSet` returns the pair
`(USER_ABORT, context.Canceled)` (line 358) and `Start` returns any non-nil
`RunTestSet` error before its status switch (lines 146-153). -/
theorem C6_delay_cancel_counterexample :
    (RunTestSet renvC6).status = .userAbort ∧
    (Start senvC6x).ret = some .canceled ∧ (Start senvC6x).ret ≠ none := by
  decide

/-- C6 (amended): when a test set ends with USER_ABORT and `RunTestSet`
returns a nil error, `Start` returns immediately with a nil error; but when
the parent scope is canceled during the warmup delay sleep, `RunTestSet`
returns `(USER_ABORT, context.Canceled)` and `Start` propagates that
non-nil error instead. -/
theorem C6_user_abort_return :
    (∀ (senv : StartEnv) (id : String) (rest : List String),
      senv.allTestSetIDs = .ok (id :: rest) → senv.nextRunIDRes = none →
      senv.instrumentRes = none → senv.selectedTests = [] →
      senv.perSet id = (.userAbort, none) →
      Start senv = ⟨none, [id], false, false⟩) ∧
    (∀ (env : RunEnv) (cases : List CaseRun),
      env.basePath = "" → env.getTestCases = .ok cases →
      cases.isEmpty = false → env.startFetchRes = none →
      env.startSetRes = none → env.canceledDuringDelay = true →
      (RunTestSet env).status = .userAbort ∧
      (RunTestSet env).err = some .canceled) ∧
    (∀ (senv : StartEnv) (id : String) (rest : List String),
      senv.allTestSetIDs = .ok (id :: rest) → senv.nextRunIDRes = none →
      senv.instrumentRes = none → senv.selectedTests = [] →
      senv.perSet id = (.userAbort, some .canceled) →
      Start senv = ⟨some .canceled, [id], false, false⟩) := by
  refine ⟨?_, ?_, ?_⟩
  · intro senv id rest hids hnr hin hsel hps
    simp [Start, startLoop, hids, hnr, hin, hsel, hps]
  · intro env cases hbp hget hne hsf hss hcd
    rw [show RunTestSet env = ⟨.userAbort, some .canceled,
        [.setMocks env.baseTime env.now], none⟩ from by
      simp [RunTestSet, hbp, hget, hne, hsf, hss, hcd]]
    exact ⟨rfl, rfl⟩
  · intro senv id rest hids hnr hin hsel hps
    simp [Start, startLoop, hids, hnr, hin, hsel, hps]

/-- C6 witness: `senvC6` runs one set reporting `(USER_ABORT, nil)` and
`Start` returns nil immediately; `renvC6` is canceled during the delay and
yields `(USER_ABORT, context.Canceled)`. -/
theorem C6_user_abort_return_witness :
    Start senvC6 = ⟨none, ["ts-1"], false, false⟩ ∧
    ((RunTestSet renvC6).status = .userAbort ∧
      (RunTestSet renvC6).err = some .canceled) :=
  ⟨C6_user_abort_return.1 senvC6 "ts-1" [] rfl rfl rfl rfl rfl,
    C6_user_abort_return.2.1 renvC6 [⟨⟨"tc-1", 1, 2⟩, {}⟩] rfl rfl rfl rfl rfl
      rfl⟩

end Replayer

end Keploy
